import Mathlib

/-!
Verification development for the GraphQL subscription connection engine
(Apollo subscriptions-transport-ws protocol client).

The engine is shallowly embedded: the mutable fields of the Go
SubscriptionClient that the verified claims touch (conn, subscriptions,
isRunning, the lifecycle-context cancel flag) become a Lean structure;
every WriteJSON on the websocket is resolved by an explicit oracle (a list
of Bool outcomes consumed in order, exhaustion meaning success), and the
observable side effects (frames written, connection closed, context
cancelled, handler dispatch, run re-entry) are collected in an event trace.
Go maps are modelled as association lists with unique keys; map iteration
follows list order.
-/

set_option maxRecDepth 10000

namespace GqlWs

/-- Operation message types of the Apollo graphql-ws protocol, as declared
in the source (connection_init, conn_err, start, stop, error, data,
complete, ka, connection_ack, connection_terminate, unknown, internal). -/
inductive OperationMessageType where
  | connectionInit
  | connectionError
  | start
  | stop
  | error
  | data
  | complete
  | keepAlive
  | connectionAck
  | connectionTerminate
  | unknown
  | internal
  deriving DecidableEq, Repr

/-- Payload of an operation message. A start frame carries the marshalled
query and variables; other frames carry nothing or opaque raw bytes. -/
inductive Payload where
  | empty
  | startBody (query : String) (vars : List (String × String))
  | raw (s : String)
  deriving DecidableEq, Repr

/-- OperationMessage is the wire envelope sent to and from the server:
an operation id, a message type and a payload. -/
structure OperationMessage where
  ID : String
  type : OperationMessageType
  payload : Payload
  deriving DecidableEq, Repr

/-- One registered subscription: query text, variables, handler (identified
by an opaque tag, since only its invocation is observable) and the two
lifecycle flags started and restarting. -/
structure subscription where
  query : String
  vars : List (String × String)
  handler : Nat
  started : Bool
  restarting : Bool
  deriving DecidableEq, Repr

/-- The mutable engine state the claims are about: the connection reference
(present or absent), the subscription registry (a map from id to
subscription, modelled as an association list with unique keys), the
isRunning flag, and whether the current lifecycle context has been
cancelled. Pure configuration (url, timeouts, read limit, retry budget,
callbacks) is passed to the modelled operations as explicit parameters
where it matters. -/
structure SubscriptionClient where
  conn : Bool
  subscriptions : List (String × subscription)
  isRunning : Bool
  ctxCancelled : Bool
  deriving DecidableEq, Repr

/-- Oracle for transport effects: outcomes of successive WriteJSON calls
and of successive conn.Close calls, consumed in order. An exhausted list
means the effect succeeds. -/
structure Wire where
  sends : List Bool
  closes : List Bool
  deriving DecidableEq, Repr

/-- Observable effects of the engine, recorded as a trace. -/
inductive Event where
  | sent (m : OperationMessage)
  | sendFailed (m : OperationMessage)
  | closedConn
  | cancelCtx
  | enterRun
  | handlerRun (handler : Nat) (m : OperationMessage)
  | onDisconnected
  | onConnectedCalled
  deriving DecidableEq, Repr

/-- Errors returned by the modelled operations. -/
inductive GError where
  | notFound (id : String)
  | sendFailed
  | closeFailed
  deriving DecidableEq, Repr

/-- Consume the next WriteJSON outcome from the oracle. -/
def popSend : Wire → Bool × Wire
  | ⟨[], cs⟩ => (true, ⟨[], cs⟩)
  | ⟨b :: bs, cs⟩ => (b, ⟨bs, cs⟩)

/-- Consume the next conn.Close outcome from the oracle. -/
def popClose : Wire → Bool × Wire
  | ⟨ss, []⟩ => (true, ⟨ss, []⟩)
  | ⟨ss, b :: bs⟩ => (b, ⟨ss, bs⟩)

/-- Result of an operation that only touches the wire. -/
structure WireResult where
  err : Option GError
  wire : Wire
  events : List Event
  deriving DecidableEq, Repr

/-- conn.WriteJSON: sends the message, outcome decided by the oracle. -/
def writeJSON (w : Wire) (m : OperationMessage) : WireResult :=
  let (ok, w') := popSend w
  if ok then ⟨none, w', [.sent m]⟩ else ⟨some .sendFailed, w', [.sendFailed m]⟩

/-- The stop frame sent by stopSubscription for a given id. -/
def stopMessage (id : String) : OperationMessage := ⟨id, .stop, .empty⟩

/-- The connection_terminate frame sent by terminate (no id). -/
def terminateMessage : OperationMessage := ⟨"", .connectionTerminate, .empty⟩

/-- The start frame sent by startSubscription: id plus the marshalled
query and variables. -/
def startMessage (id : String) (sub : subscription) : OperationMessage :=
  ⟨id, .start, .startBody sub.query sub.vars⟩

/-- stopSubscription: if a connection exists, send a stop message for the
id (best effort); without a connection it is a no-op returning nil. -/
def stopSubscription (conn : Bool) (w : Wire) (id : String) : WireResult :=
  if conn then writeJSON w (stopMessage id) else ⟨none, w, []⟩

/-- terminate: if a connection exists, send a connection_terminate
message; without a connection it is a no-op returning nil. -/
def terminate (conn : Bool) (w : Wire) : WireResult :=
  if conn then writeJSON w terminateMessage else ⟨none, w, []⟩

/-- Membership test of an id among the registry keys, as the Go
comma-ok map lookup. -/
def hasKey (id : String) (subs : List (String × subscription)) : Bool :=
  subs.any (fun p => p.1 = id)

/-- Go map deletion: remove the entry with the given key. -/
def mapDelete (id : String) (subs : List (String × subscription)) :
    List (String × subscription) :=
  subs.filter (fun p => ¬ p.1 = id)

/-- Go map assignment: overwrite the entry if the key exists, else append. -/
def mapInsert (id : String) (v : subscription) (subs : List (String × subscription)) :
    List (String × subscription) :=
  if hasKey id subs then subs.map (fun p => if p.1 = id then (id, v) else p)
  else subs ++ [(id, v)]

/-- Result of an operation on the whole client. -/
structure OpResult where
  err : Option GError
  client : SubscriptionClient
  wire : Wire
  events : List Event
  deriving DecidableEq, Repr

/-- Unsubscribe: fails with a not-found error when the id is absent;
otherwise sends the stop frame via stopSubscription (best effort), then
deletes the entry from the registry regardless of the send outcome, and
returns the send outcome. -/
def Unsubscribe (sc : SubscriptionClient) (w : Wire) (id : String) : OpResult :=
  if hasKey id sc.subscriptions then
    let r := stopSubscription sc.conn w id
    ⟨r.err, { sc with subscriptions := mapDelete id sc.subscriptions }, r.wire, r.events⟩
  else
    ⟨some (.notFound id), sc, w, []⟩

/-- Result of startSubscription: error, the (possibly flag-updated)
subscription, wire and events. -/
structure StartSubResult where
  err : Option GError
  sub : subscription
  wire : Wire
  events : List Event
  deriving DecidableEq, Repr

/-- startSubscription: a no-op when the subscription is already started;
otherwise marshal the query and variables (which cannot fail for the
string-valued variables modelled here), send the start frame, and on
success set restarting to false and started to true. -/
def startSubscription (w : Wire) (id : String) (sub : subscription) : StartSubResult :=
  if sub.started then ⟨none, sub, w, []⟩
  else
    let r := writeJSON w (startMessage id sub)
    match r.err with
    | some e => ⟨some e, sub, r.wire, r.events⟩
    | none => ⟨none, { sub with restarting := false, started := true }, r.wire, r.events⟩

/-- Return value of createSubscription: either the fresh id, or the error
of a failed immediate start-frame send (Go returns the pair (id, err)). -/
inductive CreateRet where
  | ok (id : String)
  | failed (e : GError)
  deriving DecidableEq, Repr

/-- Result of createSubscription: the returned id or error, plus the
updated client, wire and events. -/
structure CreateResult where
  ret : CreateRet
  client : SubscriptionClient
  wire : Wire
  events : List Event
  deriving DecidableEq, Repr

/-- createSubscription: builds the subscription record for the freshly
generated id (the collision-free generator is external, so the id is a
parameter). If the client is running and a connection exists, the start
frame is sent immediately and a send failure is returned to the caller
without inserting the record; otherwise the record is inserted into the
registry and the id is returned. -/
def createSubscription (sc : SubscriptionClient) (w : Wire) (id : String)
    (query : String) (vars : List (String × String)) (handler : Nat) : CreateResult :=
  let sub : subscription := ⟨query, vars, handler, false, false⟩
  if sc.isRunning && sc.conn then
    let r := startSubscription w id sub
    match r.err with
    | some e => ⟨.failed e, sc, r.wire, r.events⟩
    | none =>
        ⟨.ok id, { sc with subscriptions := mapInsert id r.sub sc.subscriptions },
          r.wire, r.events⟩
  else
    ⟨.ok id, { sc with subscriptions := mapInsert id sub sc.subscriptions }, w, []⟩

/-! ### Reset and Close orchestration -/

/-- Result of the per-subscription loop inside Reset: the rewritten
registry, the wire and the events. -/
structure SubsResult where
  subs : List (String × subscription)
  wire : Wire
  events : List Event
  deriving DecidableEq, Repr

/-- The loop inside Reset: for every registry entry, send its stop frame
best-effort (the error is discarded) and set started to false and
restarting to true. No entry is removed. -/
def resetSubsLoop (conn : Bool) : List (String × subscription) → Wire → SubsResult
  | [], w => ⟨[], w, []⟩
  | (id, sub) :: rest, w =>
      let r := stopSubscription conn w id
      let tail := resetSubsLoop conn rest r.wire
      ⟨(id, { sub with started := false, restarting := true }) :: tail.subs,
        tail.wire, r.events ++ tail.events⟩

/-- How Reset returns: either nil immediately (engine not running) or the
value of the re-entered Run, which is not unfolded here. -/
inductive ResetResult where
  | returnsNil
  | reentersRun
  deriving DecidableEq, Repr

/-- Result of Reset: how it returned, plus the client state handed to the
re-entered Run, the wire and the events. -/
structure ResetOutcome where
  result : ResetResult
  client : SubscriptionClient
  wire : Wire
  events : List Event
  deriving DecidableEq, Repr

/-- Reset: returns nil immediately when the engine is not running.
Otherwise it flags every registry entry for replay (stop frame, clear
started, set restarting), then, if a connection exists, sends a
connection_terminate frame (discarding the error), closes the transport
(discarding the error) and clears the connection reference; finally it
cancels the lifecycle context and re-enters Run. -/
def Reset (sc : SubscriptionClient) (w : Wire) : ResetOutcome :=
  if !sc.isRunning then ⟨.returnsNil, sc, w, []⟩
  else
    let rs := resetSubsLoop sc.conn sc.subscriptions w
    let sc1 := { sc with subscriptions := rs.subs }
    let (sc2, w2, tr2) :=
      if sc1.conn then
        let t := terminate true rs.wire
        let (_, w'') := popClose t.wire
        ({ sc1 with conn := false }, w'', t.events ++ [Event.closedConn])
      else (sc1, rs.wire, [])
    ⟨.reentersRun, { sc2 with ctxCancelled := true }, w2,
      rs.events ++ tr2 ++ [Event.cancelCtx, Event.enterRun]⟩

/-- The loop inside Close over a snapshot of the registry keys: each key
is unsubscribed in turn; the first error aborts the loop. -/
def closeSubsLoop : List String → SubscriptionClient → Wire → OpResult
  | [], sc, w => ⟨none, sc, w, []⟩
  | id :: rest, sc, w =>
    let r := Unsubscribe sc w id
    match r.err with
    | some e => ⟨some e, r.client, r.wire, r.events⟩
    | none =>
        let t := closeSubsLoop rest r.client r.wire
        ⟨t.err, t.client, t.wire, r.events ++ t.events⟩

/-- Close: marks the engine not-running, unsubscribes every registered
subscription in registry order (aborting with the error, after cancelling
the lifecycle context, if one Unsubscribe fails); on success it sends a
connection_terminate frame if a connection exists (discarding the error),
closes the transport keeping its error, clears the connection reference,
and cancels the lifecycle context. Close never re-enters Run. -/
def Close (sc : SubscriptionClient) (w : Wire) : OpResult :=
  let sc0 := { sc with isRunning := false }
  let r := closeSubsLoop (sc0.subscriptions.map Prod.fst) sc0 w
  match r.err with
  | some e => ⟨some e, { r.client with ctxCancelled := true }, r.wire,
      r.events ++ [Event.cancelCtx]⟩
  | none =>
    let (res2, sc2, w2, tr2) :=
      if r.client.conn then
        let t := terminate true r.wire
        let (ok, w'') := popClose t.wire
        ((if ok then none else some GError.closeFailed),
          { r.client with conn := false }, w'', t.events ++ [Event.closedConn])
      else (none, r.client, r.wire, ([] : List Event))
    ⟨res2, { sc2 with ctxCancelled := true }, w2, r.events ++ tr2 ++ [Event.cancelCtx]⟩

/-! ### The Run loop: the lazy-start phase, the priority select, inbound
dispatch and read-failure handling -/

/-- Result of the lazy-start loop at the top of Run. -/
structure StartLoopResult where
  err : Option GError
  subs : List (String × subscription)
  wire : Wire
  events : List Event
  deriving DecidableEq, Repr

/-- The lazy-start loop at the top of Run: for every registry entry,
startSubscription sends its start frame unless already started; on a send
failure Run unsubscribes that entry (stop frame best-effort, removal) and
returns the error, leaving the other entries registered. -/
def runStartLoop (conn : Bool) : List (String × subscription) → Wire → StartLoopResult
  | [], w => ⟨none, [], w, []⟩
  | (id, sub) :: rest, w =>
    let r := startSubscription w id sub
    match r.err with
    | some e =>
        let s := stopSubscription conn r.wire id
        ⟨some e, rest, s.wire, r.events ++ s.events⟩
    | none =>
        let t := runStartLoop conn rest r.wire
        ⟨t.err, (id, r.sub) :: t.subs, t.wire, r.events ++ t.events⟩

/-- The three branches of the select statement at the top of each Run
loop iteration. -/
inductive RunBranch where
  | ctxDoneBranch
  | errChanBranch
  | readBranch
  deriving DecidableEq, Repr

/-- The select statement of the Run loop: receive from the cancelled
lifecycle context, receive from the error channel, or fall to the default
branch (the blocking socket read). Per Go semantics, when several cases
are ready one of them is chosen pseudo-randomly; the pick argument models
that choice (true picks the context case). The default branch runs only
when neither channel is ready. -/
def runSelect (ctxDone errPending pick : Bool) : RunBranch :=
  match ctxDone, errPending with
  | false, false => .readBranch
  | true, false => .ctxDoneBranch
  | false, true => .errChanBranch
  | true, true => if pick then .ctxDoneBranch else .errChanBranch

/-- How one Run loop iteration ends. -/
inductive StepResult where
  | continueLoop
  | exitClean
  | exitReset
  | exitErr (e : String)
  deriving DecidableEq, Repr

/-- Result of dispatching one inbound message in the Run loop. -/
structure DispatchResult where
  client : SubscriptionClient
  wire : Wire
  events : List Event
  step : StepResult
  deriving DecidableEq, Repr

/-- A Go error returned by conn.ReadJSON, as far as the Run loop can
observe it: whether it is the io.EOF sentinel, its message string, and
the websocket close status extracted by websocket.CloseStatus (-1 when
the error is not a close error). -/
structure GoReadError where
  isIOEOF : Bool
  message : String
  closeStatus : Int
  deriving DecidableEq, Repr

/-- Does pat occur as a leading segment of text (character-wise)? -/
def leadEq : List Char → List Char → Bool
  | [], _ => true
  | _ :: _, [] => false
  | a :: asr, b :: bs => a = b && leadEq asr bs

/-- Does pat occur as a contiguous segment of text? Models Go
strings.Contains. -/
def containsSub (pat : List Char) : List Char → Bool
  | [] => pat.isEmpty
  | c :: rest => leadEq pat (c :: rest) || containsSub pat rest

/-- The manual EOF check of the Run loop: the error is the io.EOF
sentinel or its message contains the substring EOF. -/
def isEOFError (e : GoReadError) : Bool :=
  e.isIOEOF || containsSub "EOF".toList e.message.toList

/-- websocket.StatusNormalClosure. -/
def statusNormalClosure : Int := 1000

/-- Read-failure handling of the Run loop, and whether the retry message
was logged: an EOF condition returns Reset; a normal-closure status exits
cleanly; any other close status logs and returns Reset; every remaining
error goes through the onError policy when one is registered (a non-nil
policy outcome is returned, terminating the loop) and otherwise the loop
continues. -/
def runReadFailure (onError : Option (GoReadError → Option String))
    (e : GoReadError) : StepResult × Bool :=
  if isEOFError e then (.exitReset, false)
  else if e.closeStatus = statusNormalClosure then (.exitClean, false)
  else if e.closeStatus ≠ -1 then (.exitReset, true)
  else
    match onError with
    | some f =>
        match f e with
        | some msg => (.exitErr msg, false)
        | none => (.continueLoop, false)
    | none => (.continueLoop, false)

/-! ### findSubscription: ids are canonicalised through UUID parsing.
The uuid package is an external collaborator; uuidParse and uuidString
below model google/uuid Parse and UUID.String: Parse accepts the
hyphenated 36-character form, the urn:uuid: prefixed form, the
brace-wrapped form and the bare 32-hex-digit form, case-insensitively;
String renders the canonical lowercase hyphenated form. -/

/-- Value of one hex digit, upper or lower case (48-57 are the digits,
97-102 lowercase a-f, 65-70 uppercase A-F). -/
def hexVal (c : Char) : Option Nat :=
  let n := c.toNat
  if 48 ≤ n ∧ n ≤ 57 then some (n - 48)
  else if 97 ≤ n ∧ n ≤ 102 then some (n - 87)
  else if 65 ≤ n ∧ n ≤ 70 then some (n - 55)
  else none

/-- Two hex digits to a byte, as xtob of google/uuid. -/
def xtob (c1 c2 : Char) : Option Nat :=
  match hexVal c1, hexVal c2 with
  | some a, some b => some (a * 16 + b)
  | _, _ => none

/-- The byte encoded at offset x of the character list. -/
def byteAt (cs : List Char) (x : Nat) : Option Nat :=
  match cs.get? x, cs.get? (x + 1) with
  | some a, some b => xtob a b
  | _, _ => none

/-- Collect the bytes found at the given offsets; none if any fails. -/
def collectBytes (cs : List Char) : List Nat → Option (List Nat)
  | [] => some []
  | x :: xs =>
    match byteAt cs x, collectBytes cs xs with
    | some b, some bs => some (b :: bs)
    | _, _ => none

/-- Byte offsets of the 16 bytes in the hyphenated UUID form. -/
def uuidByteOffsets : List Nat :=
  [0, 2, 4, 6, 9, 11, 14, 16, 19, 21, 24, 26, 28, 30, 32, 34]

/-- Parse the hyphenated 36-character body: hyphens required at positions
8, 13, 18 and 23, hex pairs at the 16 byte offsets. Characters beyond
offset 31 other than the checked hyphens are ignored, as in the source
library. -/
def parseHyphenated (cs : List Char) : Option (List Nat) :=
  if (cs.get? 8 == some '-') && (cs.get? 13 == some '-')
      && (cs.get? 18 == some '-') && (cs.get? 23 == some '-') then
    collectBytes cs uuidByteOffsets
  else none

/-- ASCII lower-casing, for the case-insensitive urn prefix comparison. -/
def asciiLower (c : Char) : Char :=
  if 'A' ≤ c && c ≤ 'Z' then Char.ofNat (c.toNat + 32) else c

/-- google/uuid Parse: dispatch on the length of the string; 36 is the
plain hyphenated form, 45 the urn:uuid: form (prefix compared
case-insensitively), 38 the brace form (the wrapping characters are
dropped without being checked, as in the source library), 32 the bare
hex form; every other length is rejected. -/
def uuidParse (s : String) : Option (List Nat) :=
  let cs := s.toList
  if cs.length = 36 then parseHyphenated cs
  else if cs.length = 45 then
    if (cs.take 9).map asciiLower = "urn:uuid:".toList then parseHyphenated (cs.drop 9)
    else none
  else if cs.length = 38 then parseHyphenated (cs.drop 1)
  else if cs.length = 32 then
    collectBytes cs [0, 2, 4, 6, 8, 10, 12, 14, 16, 18, 20, 22, 24, 26, 28, 30]
  else none

/-- One lowercase hex digit (codepoint 48 + n for digits, 87 + n for
a-f). -/
def hexDigit (n : Nat) : Char :=
  Char.ofNat (if n < 10 then 48 + n else 87 + n)

/-- Two lowercase hex digits of a byte. -/
def byteHex (b : Nat) : List Char := [hexDigit (b / 16 % 16), hexDigit (b % 16)]

/-- UUID.String of google/uuid: the canonical lowercase hyphenated form
of the 16 bytes. -/
def uuidString (bs : List Nat) : String :=
  String.mk ((bs.take 4 |>.map byteHex).flatten ++ ['-']
    ++ ((bs.drop 4).take 2 |>.map byteHex).flatten ++ ['-']
    ++ ((bs.drop 6).take 2 |>.map byteHex).flatten ++ ['-']
    ++ ((bs.drop 8).take 2 |>.map byteHex).flatten ++ ['-']
    ++ ((bs.drop 10).map byteHex).flatten)

/-- First-match association-list lookup, as the Go map read. -/
def lookupSub (k : String) : List (String × subscription) → Option subscription
  | [] => none
  | (id, sub) :: rest => if id = k then some sub else lookupSub k rest

/-- findSubscription: parse the inbound id as a UUID; on failure return
nothing; on success look the canonical string form up in the registry. -/
def findSubscription (sc : SubscriptionClient) (ID : String) : Option subscription :=
  match uuidParse ID with
  | none => none
  | some u => lookupSub (uuidString u) sc.subscriptions

/-- runSubHandler: look the message id up through findSubscription; when
absent the frame is dropped silently, otherwise the handler is dispatched
as an independent concurrent task (recorded as a handlerRun event). -/
def runSubHandler (sc : SubscriptionClient) (m : OperationMessage) : List Event :=
  match findSubscription sc m.ID with
  | none => []
  | some sub => [Event.handlerRun sub.handler m]

/-- The inbound-message switch of the Run loop: data and error frames go
to runSubHandler; a complete frame is an implicit cancellation through
Unsubscribe with the returned error discarded; connection_ack invokes the
connected callback when one is registered; every other kind leaves the
state untouched. No branch ends the loop. -/
def runDispatch (sc : SubscriptionClient) (w : Wire) (hasOnConnected : Bool)
    (m : OperationMessage) : DispatchResult :=
  match m.type with
  | .error => ⟨sc, w, runSubHandler sc m, .continueLoop⟩
  | .data => ⟨sc, w, runSubHandler sc m, .continueLoop⟩
  | .complete =>
      let r := Unsubscribe sc w m.ID
      ⟨r.client, r.wire, r.events, .continueLoop⟩
  | .connectionAck =>
      ⟨sc, w, if hasOnConnected then [Event.onConnectedCalled] else [], .continueLoop⟩
  | _ => ⟨sc, w, [], .continueLoop⟩

/-! ### The connect retry loop (init) -/

/-- The retry loop of init. The attempt function gives the outcome of the
k-th connect attempt (acquiring the websocket, applying the read limit
and sending connection_init): none on success, or the error message.
Time is measured in seconds and advanced only by the one-second sleeps
between attempts, with the attempts themselves instantaneous, so attempt
k happens k seconds after the first one; the Go guard compares the start
time plus the retry budget against the current time, giving up strictly
after the budget is exceeded. Returns the final error (none on success),
the number of attempts made, and the events (the disconnected callback
fires on giving up, when registered). -/
def initLoop (budget : Nat) (att : Nat → Option String) (cb : Bool) (k : Nat) :
    Option String × Nat × List Event :=
  match att k with
  | none => (none, 1, [])
  | some e =>
    if _h : budget < k then (some e, 1, if cb then [Event.onDisconnected] else [])
    else
      let r := initLoop budget att cb (k + 1)
      (r.1, r.2.1 + 1, r.2.2)
termination_by budget + 1 - k
decreasing_by omega

/-- init: run the retry loop from the first attempt. -/
def clientInit (budget : Nat) (att : Nat → Option String) (cb : Bool) :
    Option String × Nat × List Event :=
  initLoop budget att cb 0

/-- The gate at the top of Run: a failing init is surfaced as the fatal
retry-timeout error, a successful one lets Run proceed (none). -/
def runInitGate (budget : Nat) (att : Nat → Option String) (cb : Bool) : Option String :=
  if (clientInit budget att cb).1.isSome then some "retry timeout. exiting" else none

/-! ### Helper predicates used by the theorems -/

/-- Every outcome in the list is a success. -/
def allTrue (l : List Bool) : Prop := ∀ b ∈ l, b = true

/-- A stop frame for the id was written (successfully or not). -/
def stopAttempt (id : String) (ev : List Event) : Prop :=
  Event.sent (stopMessage id) ∈ ev ∨ Event.sendFailed (stopMessage id) ∈ ev

/-- A connection_terminate frame was written (successfully or not). -/
def termAttempt (ev : List Event) : Prop :=
  Event.sent terminateMessage ∈ ev ∨ Event.sendFailed terminateMessage ∈ ev

/-! ### Helper lemmas -/

lemma hasKey_mapDelete (id : String) (subs : List (String × subscription)) :
    hasKey id (mapDelete id subs) = false := by
  induction subs with
  | nil => rfl
  | cons p rest ih =>
      by_cases h : p.1 = id <;> simp_all [hasKey, mapDelete]

lemma stopSubscription_attempt (w : Wire) (id : String) :
    stopAttempt id (stopSubscription true w id).events := by
  obtain ⟨ws, wc⟩ := w
  cases ws with
  | nil => left; simp [stopSubscription, writeJSON, popSend]
  | cons b rest =>
      cases b
      · right; simp [stopSubscription, writeJSON, popSend]
      · left; simp [stopSubscription, writeJSON, popSend]

lemma terminate_attempt (w : Wire) :
    termAttempt (terminate true w).events := by
  obtain ⟨ws, wc⟩ := w
  cases ws with
  | nil => left; simp [terminate, writeJSON, popSend]
  | cons b rest =>
      cases b
      · right; simp [terminate, writeJSON, popSend]
      · left; simp [terminate, writeJSON, popSend]

/-! ### Claim theorems -/

/-- C10: calling Reset while the engine is not running returns nil
immediately and changes nothing: no stop or terminate frames, no flag
changes, the connection reference untouched, no context cancellation, and
Run is not re-entered. -/
theorem reset_noop_when_not_running (sc : SubscriptionClient) (w : Wire)
    (h : sc.isRunning = false) : Reset sc w = ⟨.returnsNil, sc, w, []⟩ := by
  simp [Reset, h]

/-- C10 witness: a concrete not-running client with a live connection and
a registered subscription is left entirely untouched by Reset. -/
theorem reset_noop_when_not_running_witness :
    Reset ⟨true, [("a", ⟨"q", [], 0, true, false⟩)], false, false⟩ ⟨[], []⟩
      = ⟨.returnsNil, ⟨true, [("a", ⟨"q", [], 0, true, false⟩)], false, false⟩, ⟨[], []⟩, []⟩ :=
  reset_noop_when_not_running _ _ rfl

/-- C8 counterexample: when the lifecycle context is cancelled and a
handler error is pending at the same time, the select can consume the
error-channel case (Go chooses pseudo-randomly among ready cases), so a
cancelled context is not always observed before a pending error. -/
theorem run_select_counterexample :
    runSelect true true false = RunBranch.errChanBranch ∧
    RunBranch.errChanBranch ≠ RunBranch.ctxDoneBranch := by decide

/-- C8 amended: on every iteration at most one of the three event sources
is consumed; the blocking socket read runs exactly when neither the
lifecycle context is cancelled nor an error is pending, so a pending
error (or a cancellation) is always consumed before the loop blocks on
the next read; a solely-ready source is always the one consumed; but when
the cancelled context and a pending error are ready together the choice
between those two is nondeterministic. -/
theorem run_select_amended (c e p : Bool) :
    (runSelect c e p = RunBranch.readBranch ↔ (c = false ∧ e = false))
    ∧ (c = false → e = true → runSelect c e p = RunBranch.errChanBranch)
    ∧ (c = true → e = false → runSelect c e p = RunBranch.ctxDoneBranch)
    ∧ (c = true → e = true →
        runSelect c e p = RunBranch.ctxDoneBranch ∨
        runSelect c e p = RunBranch.errChanBranch) := by
  revert c e p; decide

/-- C8 witness: a pending error with an uncancelled context is consumed
ahead of the read; a cancelled context with no pending error wins. -/
theorem run_select_amended_witness :
    runSelect false true false = RunBranch.errChanBranch ∧
    runSelect true false true = RunBranch.ctxDoneBranch :=
  ⟨(run_select_amended false true false).2.1 rfl rfl,
   (run_select_amended true false true).2.2.1 rfl rfl⟩

/-- C6: Unsubscribe of an absent id fails with the not-found error and
changes nothing; Unsubscribe of a present id deletes the entry from the
registry (so the id is gone even when the stop-frame send fails), writes
the stop frame exactly when a connection exists, and without a connection
returns nil having sent nothing. -/
theorem unsubscribe_cancel (sc : SubscriptionClient) (w : Wire) (id : String) :
    (hasKey id sc.subscriptions = false →
      Unsubscribe sc w id = ⟨some (.notFound id), sc, w, []⟩)
    ∧ (hasKey id sc.subscriptions = true →
      (Unsubscribe sc w id).client
          = { sc with subscriptions := mapDelete id sc.subscriptions }
      ∧ hasKey id (Unsubscribe sc w id).client.subscriptions = false
      ∧ (sc.conn = true → stopAttempt id (Unsubscribe sc w id).events)
      ∧ (sc.conn = false →
          (Unsubscribe sc w id).err = none ∧ (Unsubscribe sc w id).events = [])) := by
  constructor
  · intro h
    simp [Unsubscribe, h]
  · intro h
    refine ⟨by simp [Unsubscribe, h], by simp [Unsubscribe, h, hasKey_mapDelete], ?_, ?_⟩
    · intro hc
      simpa [Unsubscribe, h, hc] using stopSubscription_attempt w id
    · intro hc
      simp [Unsubscribe, h, hc, stopSubscription]

/-- C6 witness: cancelling the unknown id b on a concrete one-entry
registry returns not-found and leaves the state unchanged; cancelling the
present id a over a live connection whose send fails still removes a. -/
theorem unsubscribe_cancel_witness :
    Unsubscribe ⟨true, [("a", ⟨"q", [], 0, true, false⟩)], true, false⟩ ⟨[false], []⟩ "b"
      = ⟨some (.notFound "b"), ⟨true, [("a", ⟨"q", [], 0, true, false⟩)], true, false⟩,
          ⟨[false], []⟩, []⟩
    ∧ hasKey "a" (Unsubscribe ⟨true, [("a", ⟨"q", [], 0, true, false⟩)], true, false⟩
        ⟨[false], []⟩ "a").client.subscriptions = false :=
  ⟨(unsubscribe_cancel _ _ _).1 (by decide),
   ((unsubscribe_cancel _ _ _).2 (by decide)).2.1⟩

/-- C4: classification of socket read errors in the Run loop. An
end-of-stream error (the io.EOF sentinel or a message containing EOF)
returns Reset; otherwise a normal-closure status ends the loop cleanly
with no error and no Reset; any other close status is logged and returns
Reset; every remaining error is handed to the registered onError policy,
terminating the loop with the policy outcome exactly when it is non-nil
and continuing otherwise. -/
theorem run_read_failure_policy (onErr : Option (GoReadError → Option String))
    (e : GoReadError) (f : GoReadError → Option String) (msg : String) :
    (isEOFError e = true → runReadFailure onErr e = (.exitReset, false))
    ∧ (isEOFError e = false → e.closeStatus = statusNormalClosure →
        runReadFailure onErr e = (.exitClean, false))
    ∧ (isEOFError e = false → e.closeStatus ≠ statusNormalClosure →
        e.closeStatus ≠ -1 → runReadFailure onErr e = (.exitReset, true))
    ∧ (isEOFError e = false → e.closeStatus = -1 → onErr = some f →
        (f e = some msg → runReadFailure onErr e = (.exitErr msg, false))
        ∧ (f e = none → runReadFailure onErr e = (.continueLoop, false))) := by
  refine ⟨fun h => by simp [runReadFailure, h], fun h h2 => by simp [runReadFailure, h, h2],
    fun h h2 h3 => by simp [runReadFailure, h, h2, h3], fun h h2 hf => ⟨?_, ?_⟩⟩
  · intro hm
    simp [runReadFailure, h, h2, hf, hm, statusNormalClosure]
  · intro hm
    simp [runReadFailure, h, h2, hf, hm, statusNormalClosure]

/-- C4 witness: a concrete EOF-bearing error resets; a concrete normal
closure exits cleanly; a concrete plain error with a nil-returning policy
continues, and with an error-returning policy terminates. -/
theorem run_read_failure_policy_witness :
    runReadFailure none ⟨true, "EOF", -1⟩ = (.exitReset, false)
    ∧ runReadFailure none ⟨false, "closed", 1000⟩ = (.exitClean, false)
    ∧ runReadFailure none ⟨false, "going away", 1001⟩ = (.exitReset, true)
    ∧ runReadFailure (some fun _ => none) ⟨false, "torn", -1⟩ = (.continueLoop, false)
    ∧ runReadFailure (some fun _ => some "fatal") ⟨false, "torn", -1⟩
        = (.exitErr "fatal", false) :=
  ⟨(run_read_failure_policy none ⟨true, "EOF", -1⟩ (fun _ => none) "").1 (by decide),
   (run_read_failure_policy none ⟨false, "closed", 1000⟩ (fun _ => none) "").2.1
     (by decide) (by decide),
   (run_read_failure_policy none ⟨false, "going away", 1001⟩ (fun _ => none) "").2.2.1
     (by decide) (by decide) (by decide),
   ((run_read_failure_policy (some fun _ => none) ⟨false, "torn", -1⟩
       (fun _ => none) "").2.2.2 (by decide) (by decide) rfl).2 rfl,
   ((run_read_failure_policy (some fun _ => some "fatal") ⟨false, "torn", -1⟩
       (fun _ => some "fatal") "fatal").2.2.2 (by decide) (by decide) rfl).1 rfl⟩

/-- C5: registration while the engine is running with a live connection
sends the start frame at once; a send failure is returned to the caller
with the registry (and whole client) unchanged; a successful send inserts
the record marked started with the fresh id returned. When the engine is
not running the record is inserted unsent and unstarted (its start frame
deferred to the lazy-start loop of Run) and the fresh id is returned. -/
theorem create_subscription_register (sc : SubscriptionClient) (w : Wire) (id : String)
    (q : String) (vs : List (String × String)) (hd : Nat) :
    (sc.isRunning = true → sc.conn = true → (popSend w).1 = false →
      createSubscription sc w id q vs hd =
        ⟨.failed .sendFailed, sc, (popSend w).2,
          [.sendFailed (startMessage id ⟨q, vs, hd, false, false⟩)]⟩)
    ∧ (sc.isRunning = true → sc.conn = true → (popSend w).1 = true →
      createSubscription sc w id q vs hd =
        ⟨.ok id, { sc with
            subscriptions := mapInsert id (⟨q, vs, hd, true, false⟩ : subscription)
              sc.subscriptions }, (popSend w).2,
          [.sent (startMessage id ⟨q, vs, hd, false, false⟩)]⟩)
    ∧ (sc.isRunning = false →
      createSubscription sc w id q vs hd =
        ⟨.ok id, { sc with
            subscriptions := mapInsert id (⟨q, vs, hd, false, false⟩ : subscription)
              sc.subscriptions }, w, []⟩) := by
  refine ⟨fun hr hc hs => ?_, fun hr hc hs => ?_, fun hr => ?_⟩
  · simp [createSubscription, startSubscription, writeJSON, hr, hc, hs]
  · simp [createSubscription, startSubscription, writeJSON, hr, hc, hs]
  · simp [createSubscription, hr]

/-- C5 witness: on a running, connected client, a failing send leaves the
one-entry registry unchanged and returns the error, while on a
not-running client the record is inserted with no frame written. -/
theorem create_subscription_register_witness :
    createSubscription ⟨true, [], true, false⟩ ⟨[false], []⟩ "i" "q" [] 7
      = ⟨.failed .sendFailed, ⟨true, [], true, false⟩, ⟨[], []⟩,
          [.sendFailed (startMessage "i" ⟨"q", [], 7, false, false⟩)]⟩
    ∧ createSubscription ⟨false, [], false, false⟩ ⟨[], []⟩ "i" "q" [] 7
      = ⟨.ok "i", ⟨false, [("i", ⟨"q", [], 7, false, false⟩)], false, false⟩, ⟨[], []⟩, []⟩ := by
  refine ⟨?_, ?_⟩
  · have h := (create_subscription_register ⟨true, [], true, false⟩ ⟨[false], []⟩
      "i" "q" [] 7).1 rfl rfl (by decide)
    simpa [popSend] using h
  · have h := (create_subscription_register ⟨false, [], false, false⟩ ⟨[], []⟩
      "i" "q" [] 7).2.2 rfl
    simpa [mapInsert, hasKey] using h

/-- C7: a complete frame for a registered id X is an implicit
cancellation: X is removed from the registry with its stop frame written
when a connection exists, and the loop continues; a second complete frame
for X is a no-op, changing neither the client nor the wire, producing no
events, not ending the loop, and surfacing no error (Unsubscribe's
not-found error is discarded by the dispatch). -/
theorem complete_frame_idempotent (sc : SubscriptionClient) (w : Wire)
    (hob : Bool) (X : String) (h : hasKey X sc.subscriptions = true) :
    hasKey X (runDispatch sc w hob ⟨X, .complete, .empty⟩).client.subscriptions = false
    ∧ (runDispatch sc w hob ⟨X, .complete, .empty⟩).step = .continueLoop
    ∧ (sc.conn = true →
        stopAttempt X (runDispatch sc w hob ⟨X, .complete, .empty⟩).events)
    ∧ runDispatch (runDispatch sc w hob ⟨X, .complete, .empty⟩).client
        (runDispatch sc w hob ⟨X, .complete, .empty⟩).wire hob ⟨X, .complete, .empty⟩
      = ⟨(runDispatch sc w hob ⟨X, .complete, .empty⟩).client,
          (runDispatch sc w hob ⟨X, .complete, .empty⟩).wire, [], .continueLoop⟩ := by
  have habs : hasKey X (mapDelete X sc.subscriptions) = false := hasKey_mapDelete X _
  refine ⟨?_, ?_, ?_, ?_⟩
  · simp [runDispatch, Unsubscribe, h, habs]
  · simp [runDispatch, Unsubscribe, h]
  · intro hc
    simpa [runDispatch, Unsubscribe, h, hc] using stopSubscription_attempt w X
  · simp [runDispatch, Unsubscribe, h, habs]

/-- C7 witness: a concrete registry holding X; the first complete frame
removes X (over a live connection, attempting its stop frame), the second
one is a pure no-op that keeps the loop running. -/
theorem complete_frame_idempotent_witness :
    hasKey "x" [(("x" : String), (⟨"q", [], 3, true, false⟩ : subscription))] = true
    ∧ hasKey "x" (runDispatch ⟨true, [("x", ⟨"q", [], 3, true, false⟩)], true, false⟩
        ⟨[], []⟩ false ⟨"x", .complete, .empty⟩).client.subscriptions = false
    ∧ runDispatch (runDispatch ⟨true, [("x", ⟨"q", [], 3, true, false⟩)], true, false⟩
          ⟨[], []⟩ false ⟨"x", .complete, .empty⟩).client
        (runDispatch ⟨true, [("x", ⟨"q", [], 3, true, false⟩)], true, false⟩
          ⟨[], []⟩ false ⟨"x", .complete, .empty⟩).wire false ⟨"x", .complete, .empty⟩
      = ⟨(runDispatch ⟨true, [("x", ⟨"q", [], 3, true, false⟩)], true, false⟩
            ⟨[], []⟩ false ⟨"x", .complete, .empty⟩).client,
          (runDispatch ⟨true, [("x", ⟨"q", [], 3, true, false⟩)], true, false⟩
            ⟨[], []⟩ false ⟨"x", .complete, .empty⟩).wire, [], .continueLoop⟩ :=
  ⟨by decide,
   (complete_frame_idempotent ⟨true, [("x", ⟨"q", [], 3, true, false⟩)], true, false⟩
      ⟨[], []⟩ false "x" (by decide)).1,
   (complete_frame_idempotent ⟨true, [("x", ⟨"q", [], 3, true, false⟩)], true, false⟩
      ⟨[], []⟩ false "x" (by decide)).2.2.2⟩

/-- C9: an inbound data or error frame whose id does not parse as a UUID
is dropped silently by the dispatch: no handler runs, no event is
produced, client and wire are unchanged and the loop continues, even when
the raw id string is itself a registry key; and whenever the id does
parse, the registry is consulted at the canonical (lowercase hyphenated)
rendering of the parsed UUID, not at the raw string. -/
theorem invalid_uuid_frames_dropped :
    (∀ (sc : SubscriptionClient) (w : Wire) (hob : Bool) (m : OperationMessage),
      (m.type = .data ∨ m.type = .error) → uuidParse m.ID = none →
      runDispatch sc w hob m = ⟨sc, w, [], .continueLoop⟩)
    ∧ (∀ (sc : SubscriptionClient) (ID : String) (u : List Nat),
      uuidParse ID = some u →
      findSubscription sc ID = lookupSub (uuidString u) sc.subscriptions) := by
  constructor
  · rintro sc w hob ⟨mid, mty, mp⟩ (h | h) hp <;>
      · subst h
        simp [runDispatch, runSubHandler, findSubscription] at *
        simp [hp]
  · intro sc ID u hp
    simp [findSubscription, hp]

/-- C9 witness: the raw string not-a-uuid-but-a-key is a key of the
concrete registry, yet the data frame carrying it as id is dropped with
no handler invocation and no state change; and a concrete mixed-case
UUID id is looked up at its lowercase canonical form. -/
theorem invalid_uuid_frames_dropped_witness :
    hasKey "not-a-uuid-but-a-key"
      [(("not-a-uuid-but-a-key" : String), (⟨"q", [], 5, true, false⟩ : subscription))] = true
    ∧ runDispatch ⟨true, [("not-a-uuid-but-a-key", ⟨"q", [], 5, true, false⟩)], true, false⟩
        ⟨[], []⟩ false ⟨"not-a-uuid-but-a-key", .data, .raw "payload"⟩
      = ⟨⟨true, [("not-a-uuid-but-a-key", ⟨"q", [], 5, true, false⟩)], true, false⟩,
          ⟨[], []⟩, [], .continueLoop⟩
    ∧ findSubscription ⟨true, [], true, false⟩ "123E4567-E89B-12D3-A456-426614174000"
      = lookupSub "123e4567-e89b-12d3-a456-426614174000" [] :=
  ⟨by decide,
   invalid_uuid_frames_dropped.1 _ _ _ _ (Or.inl rfl) (by decide),
   by
    have h := invalid_uuid_frames_dropped.2 ⟨true, [], true, false⟩
      "123E4567-E89B-12D3-A456-426614174000"
      [0x12, 0x3e, 0x45, 0x67, 0xe8, 0x9b, 0x12, 0xd3, 0xa4, 0x56,
        0x42, 0x66, 0x14, 0x17, 0x40, 0x00] (by decide)
    simpa using h⟩

lemma initLoop_done (budget : Nat) (att : Nat → Option String) (cb : Bool) (k : Nat)
    (h : att k = none) : initLoop budget att cb k = (none, 1, []) := by
  rw [initLoop]
  simp [h]

lemma initLoop_giveup (budget : Nat) (att : Nat → Option String) (cb : Bool) (k : Nat)
    (e : String) (h : att k = some e) (h2 : budget < k) :
    initLoop budget att cb k = (some e, 1, if cb then [Event.onDisconnected] else []) := by
  rw [initLoop]
  simp [h, h2]

lemma initLoop_retry (budget : Nat) (att : Nat → Option String) (cb : Bool) (k : Nat)
    (e : String) (h : att k = some e) (h2 : ¬ budget < k) :
    initLoop budget att cb k =
      ((initLoop budget att cb (k + 1)).1, (initLoop budget att cb (k + 1)).2.1 + 1,
        (initLoop budget att cb (k + 1)).2.2) := by
  rw [initLoop]
  simp [h, h2]

lemma initLoop_allFail (budget : Nat) (att : Nat → Option String) (cb : Bool)
    (hf : ∀ k, att k ≠ none) :
    ∀ d k, budget + 1 = k + d →
      initLoop budget att cb k =
        (att (budget + 1), d + 1, if cb then [Event.onDisconnected] else []) := by
  intro d
  induction d with
  | zero =>
      intro k hk
      obtain ⟨e, he⟩ := Option.ne_none_iff_exists'.mp (hf k)
      have hb : budget < k := by omega
      rw [initLoop_giveup budget att cb k e he hb]
      have : k = budget + 1 := by omega
      rw [this] at he
      simp [he]
  | succ d ih =>
      intro k hk
      obtain ⟨e, he⟩ := Option.ne_none_iff_exists'.mp (hf k)
      have hb : ¬ budget < k := by omega
      rw [initLoop_retry budget att cb k e he hb, ih (k + 1) (by omega)]

lemma initLoop_reach (budget : Nat) (att : Nat → Option String) (cb : Bool) :
    ∀ d k0, (∀ j, j < k0 + d → att j ≠ none) → att (k0 + d) = none →
      k0 + d ≤ budget + 1 → initLoop budget att cb k0 = (none, d + 1, []) := by
  intro d
  induction d with
  | zero =>
      intro k0 _ hs _
      exact initLoop_done budget att cb k0 (by simpa using hs)
  | succ d ih =>
      intro k0 hj hs hb
      obtain ⟨e, he⟩ := Option.ne_none_iff_exists'.mp (hj k0 (by omega))
      have h2 : ¬ budget < k0 := by omega
      rw [initLoop_retry budget att cb k0 e he h2,
        ih (k0 + 1) (fun j hlt => hj j (by omega)) (by
          have : k0 + 1 + d = k0 + (d + 1) := by omega
          rw [this]; exact hs) (by omega)]

/-- C3: the connect-retry policy of init and its surfacing through Run.
When every attempt fails, init makes one attempt per second until the
elapsed time strictly exceeds the retry budget — that is, exactly budget
plus two attempts spaced one second apart — returns the terminal error
(the error of the last attempt), fires the disconnected callback exactly
once when one is registered and not at all otherwise, and Run surfaces
the failure as the fatal non-nil retry-timeout error. When some attempt
within the budget succeeds after only failures, init returns nil after
that attempt with no disconnected callback, and Run proceeds. -/
theorem init_retry_budget :
    (∀ (budget : Nat) (att : Nat → Option String) (cb : Bool),
      (∀ k, att k ≠ none) →
      clientInit budget att cb =
        (att (budget + 1), budget + 2, if cb then [Event.onDisconnected] else [])
      ∧ runInitGate budget att cb = some "retry timeout. exiting")
    ∧ (∀ (budget : Nat) (att : Nat → Option String) (cb : Bool) (k : Nat),
      (∀ j, j < k → att j ≠ none) → att k = none → k ≤ budget + 1 →
      clientInit budget att cb = (none, k + 1, [])
      ∧ runInitGate budget att cb = none) := by
  constructor
  · intro budget att cb hf
    have h := initLoop_allFail budget att cb hf (budget + 1) 0 (by omega)
    constructor
    · simpa [clientInit] using h
    · obtain ⟨e, he⟩ := Option.ne_none_iff_exists'.mp (hf (budget + 1))
      simp [runInitGate, clientInit, h, he]
  · intro budget att cb k hj hs hb
    have h := initLoop_reach budget att cb k 0 (by simpa using hj) (by simpa using hs)
      (by omega)
    constructor
    · simpa [clientInit] using h
    · simp [runInitGate, clientInit, h]

/-- C3 witness: with a budget of one second and every attempt failing,
init makes three attempts, returns the terminal error, fires the
disconnected callback exactly once, and Run returns the fatal error;
with the second attempt succeeding, init returns nil after two attempts
and no callback fires. -/
theorem init_retry_budget_witness :
    clientInit 1 (fun _ => some "dial refused") true
      = (some "dial refused", 3, [Event.onDisconnected])
    ∧ runInitGate 1 (fun _ => some "dial refused") true = some "retry timeout. exiting"
    ∧ clientInit 1 (fun k => if k = 0 then some "dial refused" else none) false
      = (none, 2, []) := by
  refine ⟨?_, ?_, ?_⟩
  · exact ((init_retry_budget.1 1 (fun _ => some "dial refused") true
      (fun k => by simp)).1)
  · exact ((init_retry_budget.1 1 (fun _ => some "dial refused") true
      (fun k => by simp)).2)
  · exact (init_retry_budget.2 1 (fun k => if k = 0 then some "dial refused" else none)
      false 1 (fun j hj => by simp [Nat.lt_one_iff.mp hj]) (by simp)
      (by omega)).1

lemma popSend_spec (w : Wire) (h : allTrue w.sends) :
    (popSend w).1 = true ∧ allTrue (popSend w).2.sends ∧ (popSend w).2.closes = w.closes := by
  obtain ⟨ws, wc⟩ := w
  cases ws with
  | nil => simp [popSend, allTrue]
  | cons b bs =>
      simp only [allTrue, List.mem_cons] at h
      exact ⟨h b (Or.inl rfl), fun x hx => h x (Or.inr hx), rfl⟩

lemma writeJSON_ok (w : Wire) (m : OperationMessage) (h : allTrue w.sends) :
    (writeJSON w m).err = none ∧ (writeJSON w m).events = [Event.sent m]
    ∧ allTrue (writeJSON w m).wire.sends ∧ (writeJSON w m).wire.closes = w.closes := by
  obtain ⟨hs, ht, hc⟩ := popSend_spec w h
  simp [writeJSON, hs, ht, hc]

lemma stopAttempt_append_left (id : String) (ev1 ev2 : List Event)
    (h : stopAttempt id ev1) : stopAttempt id (ev1 ++ ev2) := by
  rcases h with h | h
  · exact Or.inl (List.mem_append_left _ h)
  · exact Or.inr (List.mem_append_left _ h)

lemma stopAttempt_append_right (id : String) (ev1 ev2 : List Event)
    (h : stopAttempt id ev2) : stopAttempt id (ev1 ++ ev2) := by
  rcases h with h | h
  · exact Or.inl (List.mem_append_right _ h)
  · exact Or.inr (List.mem_append_right _ h)

lemma termAttempt_append_left (ev1 ev2 : List Event)
    (h : termAttempt ev1) : termAttempt (ev1 ++ ev2) := by
  rcases h with h | h
  · exact Or.inl (List.mem_append_left _ h)
  · exact Or.inr (List.mem_append_left _ h)

lemma termAttempt_append_right (ev1 ev2 : List Event)
    (h : termAttempt ev2) : termAttempt (ev1 ++ ev2) := by
  rcases h with h | h
  · exact Or.inl (List.mem_append_right _ h)
  · exact Or.inr (List.mem_append_right _ h)

lemma resetSubsLoop_subs (conn : Bool) :
    ∀ (subs : List (String × subscription)) (w : Wire),
      (resetSubsLoop conn subs w).subs
        = subs.map (fun p => (p.1, { p.2 with started := false, restarting := true })) := by
  intro subs
  induction subs with
  | nil => intro w; rfl
  | cons p rest ih =>
      intro w
      obtain ⟨id, sub⟩ := p
      simp [resetSubsLoop, ih]

lemma resetSubsLoop_stops :
    ∀ (subs : List (String × subscription)) (w : Wire) (id : String),
      id ∈ subs.map Prod.fst → stopAttempt id (resetSubsLoop true subs w).events := by
  intro subs
  induction subs with
  | nil => intro w id h; simp at h
  | cons p rest ih =>
      intro w id h
      obtain ⟨hid, hsub⟩ := p
      simp only [List.map_cons, List.mem_cons] at h
      rcases h with h | h
      · subst h
        exact stopAttempt_append_left _ _ _ (stopSubscription_attempt w id)
      · exact stopAttempt_append_right _ _ _ (ih _ id h)

lemma runStartLoop_replay (conn : Bool) :
    ∀ (subs : List (String × subscription)) (w : Wire),
      (∀ p ∈ subs, p.2.started = false) → allTrue w.sends →
      (runStartLoop conn subs w).err = none
      ∧ (runStartLoop conn subs w).events
          = subs.map (fun p => Event.sent (startMessage p.1 p.2))
      ∧ allTrue (runStartLoop conn subs w).wire.sends := by
  intro subs
  induction subs with
  | nil => intro w _ hw; exact ⟨rfl, rfl, hw⟩
  | cons p rest ih =>
      intro w hst hw
      obtain ⟨id, sub⟩ := p
      have hs0 : sub.started = false := hst (id, sub) (List.mem_cons_self _ _)
      obtain ⟨he, hev, hws, _⟩ := writeJSON_ok w (startMessage id sub) hw
      have hrest := ih (writeJSON w (startMessage id sub)).wire
        (fun p hp => hst p (List.mem_cons_of_mem _ hp)) hws
      simp only [runStartLoop, startSubscription, hs0, Bool.false_eq_true, if_false, he,
        hev] at *
      exact ⟨hrest.1, by simp [hrest.2.1], hrest.2.2⟩

/-- C2: Reset on a running engine flags every registry entry for replay:
a best-effort stop frame is attempted for every entry (when a connection
exists), every started flag is cleared and every restarting flag set, and
no entry is removed; if a connection exists a connection_terminate frame
is attempted, the transport closed, and the reference cleared; the
lifecycle context is cancelled and Run is re-entered; and on the next
connection the lazy-start loop, running over this registry in which every
started flag is already false, sends (when the writes succeed) exactly
one start frame per still-registered subscription. -/
theorem reset_restarts_subscriptions (sc : SubscriptionClient) (w : Wire)
    (h : sc.isRunning = true) :
    (Reset sc w).result = .reentersRun
    ∧ (Reset sc w).client.subscriptions.map Prod.fst = sc.subscriptions.map Prod.fst
    ∧ (∀ p ∈ (Reset sc w).client.subscriptions,
        p.2.started = false ∧ p.2.restarting = true)
    ∧ (sc.conn = true →
        (∀ id ∈ sc.subscriptions.map Prod.fst, stopAttempt id (Reset sc w).events)
        ∧ termAttempt (Reset sc w).events
        ∧ Event.closedConn ∈ (Reset sc w).events
        ∧ (Reset sc w).client.conn = false)
    ∧ Event.cancelCtx ∈ (Reset sc w).events
    ∧ Event.enterRun ∈ (Reset sc w).events
    ∧ (∀ w2 : Wire, allTrue w2.sends →
        (runStartLoop true (Reset sc w).client.subscriptions w2).err = none
        ∧ (runStartLoop true (Reset sc w).client.subscriptions w2).events
            = (Reset sc w).client.subscriptions.map
                (fun p => Event.sent (startMessage p.1 p.2))) := by
  have hsubs := resetSubsLoop_subs sc.conn sc.subscriptions w
  by_cases hc : sc.conn = true
  · have hR : Reset sc w =
        ⟨.reentersRun,
          { sc with
              subscriptions := (resetSubsLoop sc.conn sc.subscriptions w).subs,
              conn := false, ctxCancelled := true },
          (popClose (terminate true (resetSubsLoop sc.conn sc.subscriptions w).wire).wire).2,
          (resetSubsLoop sc.conn sc.subscriptions w).events
            ++ ((terminate true (resetSubsLoop sc.conn sc.subscriptions w).wire).events
                ++ [Event.closedConn])
            ++ [Event.cancelCtx, Event.enterRun]⟩ := by
      simp [Reset, h, hc]
    refine ⟨by simp [hR], by simp [hR, hsubs], ?_, fun _ => ⟨?_, ?_, ?_, by simp [hR]⟩,
      by simp [hR], by simp [hR], ?_⟩
    · intro p hp
      simp only [hR, hsubs] at hp
      simp only [List.mem_map] at hp
      obtain ⟨q, _, hq⟩ := hp
      simp [← hq]
    · intro id hid
      rw [hR]
      refine stopAttempt_append_left _ _ _ (stopAttempt_append_left _ _ _ ?_)
      rw [hc]
      exact resetSubsLoop_stops sc.subscriptions w id hid
    · rw [hR]
      refine termAttempt_append_left _ _ (termAttempt_append_right _ _ ?_)
      exact termAttempt_append_left _ _ (terminate_attempt _)
    · simp [hR]
    · intro w2 hw2
      have hflags : ∀ p ∈ (Reset sc w).client.subscriptions, p.2.started = false := by
        intro p hp
        simp only [hR, hsubs, List.mem_map] at hp
        obtain ⟨q, _, hq⟩ := hp
        simp [← hq]
      have := runStartLoop_replay true (Reset sc w).client.subscriptions w2 hflags hw2
      exact ⟨this.1, this.2.1⟩
  · have hcf : sc.conn = false := by simpa using hc
    have hR : Reset sc w =
        ⟨.reentersRun,
          { sc with
              subscriptions := (resetSubsLoop sc.conn sc.subscriptions w).subs,
              ctxCancelled := true },
          (resetSubsLoop sc.conn sc.subscriptions w).wire,
          (resetSubsLoop sc.conn sc.subscriptions w).events
            ++ [Event.cancelCtx, Event.enterRun]⟩ := by
      simp [Reset, h, hcf]
    refine ⟨by simp [hR], by simp [hR, hsubs], ?_, fun hcc => by simp [hcf] at hcc,
      by simp [hR], by simp [hR], ?_⟩
    · intro p hp
      simp only [hR, hsubs, List.mem_map] at hp
      obtain ⟨q, _, hq⟩ := hp
      simp [← hq]
    · intro w2 hw2
      have hflags : ∀ p ∈ (Reset sc w).client.subscriptions, p.2.started = false := by
        intro p hp
        simp only [hR, hsubs, List.mem_map] at hp
        obtain ⟨q, _, hq⟩ := hp
        simp [← hq]
      have := runStartLoop_replay true (Reset sc w).client.subscriptions w2 hflags hw2
      exact ⟨this.1, this.2.1⟩

/-- C2 witness: a concrete running client with a live connection and two
subscriptions, one currently started; Reset re-enters Run, keeps both
registry keys, flags both entries started-false restarting-true, and the
next lazy-start loop over the post-reset registry succeeds with no
error. -/
theorem reset_restarts_subscriptions_witness :
    (⟨true, [("a", ⟨"qa", [], 0, true, false⟩), ("b", ⟨"qb", [], 1, false, false⟩)],
        true, false⟩ : SubscriptionClient).isRunning = true
    ∧ (Reset ⟨true, [("a", ⟨"qa", [], 0, true, false⟩), ("b", ⟨"qb", [], 1, false, false⟩)],
        true, false⟩ ⟨[], []⟩).result = .reentersRun
    ∧ (Reset ⟨true, [("a", ⟨"qa", [], 0, true, false⟩), ("b", ⟨"qb", [], 1, false, false⟩)],
        true, false⟩ ⟨[], []⟩).client.subscriptions.map Prod.fst
      = [("a", (⟨"qa", [], 0, true, false⟩ : subscription)),
         ("b", ⟨"qb", [], 1, false, false⟩)].map Prod.fst
    ∧ (∀ p ∈ (Reset ⟨true, [("a", ⟨"qa", [], 0, true, false⟩),
          ("b", ⟨"qb", [], 1, false, false⟩)], true, false⟩ ⟨[], []⟩).client.subscriptions,
        p.2.started = false ∧ p.2.restarting = true)
    ∧ (runStartLoop true (Reset ⟨true, [("a", ⟨"qa", [], 0, true, false⟩),
          ("b", ⟨"qb", [], 1, false, false⟩)], true, false⟩ ⟨[], []⟩).client.subscriptions
        ⟨[], []⟩).err = none :=
  have h := reset_restarts_subscriptions
    ⟨true, [("a", ⟨"qa", [], 0, true, false⟩), ("b", ⟨"qb", [], 1, false, false⟩)],
      true, false⟩ ⟨[], []⟩ rfl
  ⟨rfl, h.1, h.2.1, h.2.2.1,
    (h.2.2.2.2.2.2 ⟨[], []⟩ (by intro b hb; simp at hb)).1⟩

lemma popClose_spec (w : Wire) (h : allTrue w.closes) : (popClose w).1 = true := by
  obtain ⟨ws, wc⟩ := w
  cases wc with
  | nil => rfl
  | cons b bs => exact h b (List.mem_cons_self _ _)

lemma mapDelete_not_mem (id : String) (subs : List (String × subscription))
    (h : id ∉ subs.map Prod.fst) : mapDelete id subs = subs :=
  List.filter_eq_self.mpr (fun a ha => by
    simp only [decide_eq_true_eq]
    intro he
    exact h (List.mem_map.mpr ⟨a, ha, he⟩))

lemma writeJSON_no_enterRun (w : Wire) (m : OperationMessage) :
    Event.enterRun ∉ (writeJSON w m).events := by
  rcases h : popSend w with ⟨ok, w'⟩
  cases ok <;> simp [writeJSON, h]

lemma stopSubscription_no_enterRun (conn : Bool) (w : Wire) (id : String) :
    Event.enterRun ∉ (stopSubscription conn w id).events := by
  cases conn
  · simp [stopSubscription]
  · simpa [stopSubscription] using writeJSON_no_enterRun w (stopMessage id)

lemma terminate_no_enterRun (conn : Bool) (w : Wire) :
    Event.enterRun ∉ (terminate conn w).events := by
  cases conn
  · simp [terminate]
  · simpa [terminate] using writeJSON_no_enterRun w terminateMessage

lemma Unsubscribe_no_enterRun (sc : SubscriptionClient) (w : Wire) (id : String) :
    Event.enterRun ∉ (Unsubscribe sc w id).events := by
  by_cases h : hasKey id sc.subscriptions
  · simpa [Unsubscribe, h] using stopSubscription_no_enterRun sc.conn w id
  · simp [Unsubscribe, h]

lemma closeSubsLoop_no_enterRun :
    ∀ (ids : List String) (sc : SubscriptionClient) (w : Wire),
      Event.enterRun ∉ (closeSubsLoop ids sc w).events := by
  intro ids
  induction ids with
  | nil => intro sc w; simp [closeSubsLoop]
  | cons id rest ih =>
      intro sc w
      rcases h : (Unsubscribe sc w id).err with _ | e
      · simp only [closeSubsLoop, h, List.mem_append]
        rintro (hm | hm)
        · exact Unsubscribe_no_enterRun sc w id hm
        · exact ih _ _ hm
      · simp only [closeSubsLoop, h]
        exact Unsubscribe_no_enterRun sc w id

lemma closeSubsLoop_preserves :
    ∀ (ids : List String) (sc : SubscriptionClient) (w : Wire),
      (closeSubsLoop ids sc w).client.conn = sc.conn
      ∧ (closeSubsLoop ids sc w).client.isRunning = sc.isRunning
      ∧ (closeSubsLoop ids sc w).client.ctxCancelled = sc.ctxCancelled := by
  intro ids
  induction ids with
  | nil => intro sc w; exact ⟨rfl, rfl, rfl⟩
  | cons id rest ih =>
      intro sc w
      by_cases hk : hasKey id sc.subscriptions
      · rcases h : (Unsubscribe sc w id).err with _ | e
        · have hcl : (Unsubscribe sc w id).client
              = { sc with subscriptions := mapDelete id sc.subscriptions } := by
            simp [Unsubscribe, hk]
          simp only [closeSubsLoop, h, hcl]
          simpa using ih { sc with subscriptions := mapDelete id sc.subscriptions }
            (Unsubscribe sc w id).wire
        · simp only [closeSubsLoop, h]
          simp [Unsubscribe, hk]
      · have h : (Unsubscribe sc w id).err = some (.notFound id) := by
          simp [Unsubscribe, hk]
        simp only [closeSubsLoop, h]
        simp [Unsubscribe, hk]

lemma closeSubsLoop_clears :
    ∀ (subs : List (String × subscription)) (sc : SubscriptionClient) (w : Wire),
      sc.subscriptions = subs → (subs.map Prod.fst).Nodup → allTrue w.sends →
      (closeSubsLoop (subs.map Prod.fst) sc w).err = none
      ∧ (closeSubsLoop (subs.map Prod.fst) sc w).client
          = { sc with subscriptions := [] }
      ∧ allTrue (closeSubsLoop (subs.map Prod.fst) sc w).wire.sends
      ∧ (closeSubsLoop (subs.map Prod.fst) sc w).wire.closes = w.closes := by
  intro subs
  induction subs with
  | nil =>
      intro sc w hsc _ hw
      refine ⟨rfl, ?_, hw, rfl⟩
      obtain ⟨c, s, r, x⟩ := sc
      simp only at hsc
      simp [closeSubsLoop, hsc]
  | cons p rest ih =>
      intro sc w hsc hnd hw
      obtain ⟨id, sub⟩ := p
      have hk : hasKey id sc.subscriptions = true := by
        simp [hasKey, hsc]
      simp only [List.map_cons, List.nodup_cons] at hnd
      have hdel : mapDelete id sc.subscriptions = rest := by
        have htail := mapDelete_not_mem id rest hnd.1
        simp only [mapDelete] at htail
        simp only [mapDelete]
        rw [hsc, List.filter_cons]
        have hhead : (fun p => decide ¬ p.1 = id) ((id, sub) : String × subscription)
            = false := by simp
        simp only [hhead, Bool.false_eq_true, if_false]
        exact htail
      have hstop : (stopSubscription sc.conn w id).err = none
          ∧ allTrue (stopSubscription sc.conn w id).wire.sends
          ∧ (stopSubscription sc.conn w id).wire.closes = w.closes := by
        cases hcn : sc.conn
        · exact ⟨rfl, hw, rfl⟩
        · obtain ⟨he, _, hws, hwc⟩ := writeJSON_ok w (stopMessage id) hw
          exact ⟨by simpa [stopSubscription] using he,
            by simpa [stopSubscription] using hws,
            by simpa [stopSubscription] using hwc⟩
      have hu : (Unsubscribe sc w id).err = none := by
        simp only [Unsubscribe, hk, if_true]
        exact hstop.1
      have hucl : (Unsubscribe sc w id).client = { sc with subscriptions := rest } := by
        simp only [Unsubscribe, hk, if_true, hdel]
      have huw : allTrue (Unsubscribe sc w id).wire.sends
          ∧ (Unsubscribe sc w id).wire.closes = w.closes := by
        simp only [Unsubscribe, hk, if_true]
        exact ⟨hstop.2.1, hstop.2.2⟩
      have := ih { sc with subscriptions := rest } (Unsubscribe sc w id).wire rfl hnd.2
        huw.1
      simp only [closeSubsLoop, hu, ← hucl] at this ⊢
      exact ⟨this.1, by simp [this.2.1], this.2.2.1, by rw [this.2.2.2, huw.2]⟩

/-- C1 counterexample: a running client with a live connection and two
subscriptions whose first stop-frame send fails. Close removes only the
first entry and then returns the error: the second subscription is still
registered (the registry is not empty), the connection reference is still
present, and no connection-close happened — contradicting the claim that
Close cancels every subscription and closes the connection even when a
stop-frame send fails. -/
theorem close_teardown_counterexample :
    (Close ⟨true, [("a", ⟨"qa", [], 0, true, false⟩), ("b", ⟨"qb", [], 1, true, false⟩)],
        true, false⟩ ⟨[false], []⟩).err = some .sendFailed
    ∧ (Close ⟨true, [("a", ⟨"qa", [], 0, true, false⟩), ("b", ⟨"qb", [], 1, true, false⟩)],
        true, false⟩ ⟨[false], []⟩).client.conn = true
    ∧ (Close ⟨true, [("a", ⟨"qa", [], 0, true, false⟩), ("b", ⟨"qb", [], 1, true, false⟩)],
        true, false⟩ ⟨[false], []⟩).client.subscriptions
      = [("b", ⟨"qb", [], 1, true, false⟩)]
    ∧ Event.closedConn ∉ (Close ⟨true, [("a", ⟨"qa", [], 0, true, false⟩),
        ("b", ⟨"qb", [], 1, true, false⟩)], true, false⟩ ⟨[false], []⟩).events := by
  decide

/-- C1 amended: Close always marks the engine not-running, cancels the
lifecycle context and never re-enters Run, and it cancels the registered
subscriptions in turn through the same stop-frame-and-remove path as
individual cancellation; when every stop-frame send succeeds (and the
registry keys are the distinct keys of a Go map) the registry is left
empty, the connection — when one exists — receives a connection_terminate
frame and is closed with its reference cleared, and Close returns the
transport-close outcome; but a failed stop-frame send aborts the
teardown at that entry: Close cancels the context and returns that error
immediately, leaving the connection reference untouched (and any entries
after the failing one still registered, as the counterexample shows). -/
theorem close_teardown_amended :
    (∀ (sc : SubscriptionClient) (w : Wire),
      (Close sc w).client.isRunning = false
      ∧ (Close sc w).client.ctxCancelled = true
      ∧ Event.enterRun ∉ (Close sc w).events)
    ∧ (∀ (sc : SubscriptionClient) (w : Wire),
      (sc.subscriptions.map Prod.fst).Nodup → allTrue w.sends → allTrue w.closes →
      (Close sc w).err = none
      ∧ (Close sc w).client = ⟨false, [], false, true⟩
      ∧ Event.cancelCtx ∈ (Close sc w).events
      ∧ (sc.conn = true →
          termAttempt (Close sc w).events ∧ Event.closedConn ∈ (Close sc w).events))
    ∧ (∀ (sc : SubscriptionClient) (w : Wire),
      (Close sc w).err = some .sendFailed → (Close sc w).client.conn = sc.conn) := by
  refine ⟨fun sc w => ?_, fun sc w hnd hw hwc => ?_, fun sc w herr => ?_⟩
  · set sc0 : SubscriptionClient := { sc with isRunning := false } with hsc0
    have hpres := closeSubsLoop_preserves (sc0.subscriptions.map Prod.fst) sc0 w
    have hrun : (closeSubsLoop (sc0.subscriptions.map Prod.fst) sc0 w).client.isRunning
        = false := by rw [hpres.2.1]
    have hnr := closeSubsLoop_no_enterRun (sc0.subscriptions.map Prod.fst) sc0 w
    rcases h : (closeSubsLoop (sc0.subscriptions.map Prod.fst) sc0 w).err with _ | e
    · by_cases hc : (closeSubsLoop (sc0.subscriptions.map Prod.fst) sc0 w).client.conn
      · refine ⟨by simp [Close, h, hc, hrun], by simp [Close, h, hc], ?_⟩
        simp only [Close, h, hc, if_true, List.mem_append]
        rintro ((hm | hm) | hm)
        · exact hnr hm
        · revert hm
          simpa using terminate_no_enterRun true _
        · simp at hm
      · refine ⟨by simp [Close, h, hc, hrun], by simp [Close, h, hc], ?_⟩
        simp only [Close, h, hc, if_false, List.mem_append]
        rintro ((hm | hm) | hm)
        · exact hnr hm
        · simp at hm
        · simp at hm
    · refine ⟨by simp [Close, h, hrun], by simp [Close, h], ?_⟩
      simp only [Close, h, List.mem_append]
      rintro (hm | hm)
      · exact hnr hm
      · simp at hm
  · have hcl := closeSubsLoop_clears sc.subscriptions { sc with isRunning := false } w
      rfl hnd hw
    rcases hcl with ⟨he, hclient, hws, hwcs⟩
    by_cases hc : sc.conn = true
    · have hcc : (closeSubsLoop (sc.subscriptions.map Prod.fst)
          { sc with isRunning := false } w).client.conn = true := by
        rw [hclient]; exact hc
      obtain ⟨hte, htev, htws, htwc⟩ := writeJSON_ok
        (closeSubsLoop (sc.subscriptions.map Prod.fst)
          { sc with isRunning := false } w).wire terminateMessage hws
      have hok : (popClose (terminate true (closeSubsLoop (sc.subscriptions.map Prod.fst)
          { sc with isRunning := false } w).wire).wire).1 = true := by
        apply popClose_spec
        show allTrue (terminate true _).wire.closes
        simp only [terminate, if_true]
        rw [htwc, hwcs]
        exact hwc
      have hC : Close sc w =
          ⟨none,
            { (closeSubsLoop (sc.subscriptions.map Prod.fst)
                { sc with isRunning := false } w).client with
                conn := false, ctxCancelled := true },
            (popClose (terminate true (closeSubsLoop (sc.subscriptions.map Prod.fst)
                { sc with isRunning := false } w).wire).wire).2,
            (closeSubsLoop (sc.subscriptions.map Prod.fst)
                { sc with isRunning := false } w).events
              ++ ((terminate true (closeSubsLoop (sc.subscriptions.map Prod.fst)
                  { sc with isRunning := false } w).wire).events ++ [Event.closedConn])
              ++ [Event.cancelCtx]⟩ := by
        simp [Close, he, hcc, hok]
      refine ⟨by simp [hC], ?_, by simp [hC], fun _ => ⟨?_, by simp [hC]⟩⟩
      · rw [hC]
        show ({ (closeSubsLoop (sc.subscriptions.map Prod.fst)
            { sc with isRunning := false } w).client with
            conn := false, ctxCancelled := true } : SubscriptionClient)
          = ⟨false, [], false, true⟩
        rw [hclient]
      · rw [hC]
        show termAttempt (_ ++ ((terminate true _).events ++ [Event.closedConn]) ++ _)
        refine termAttempt_append_left _ _ (termAttempt_append_right _ _
          (termAttempt_append_left _ _ ?_))
        simp only [terminate, if_true]
        rw [htev]
        exact Or.inl (List.mem_singleton.mpr rfl)
    · have hcf : sc.conn = false := by simpa using hc
      have hcc : (closeSubsLoop (sc.subscriptions.map Prod.fst)
          { sc with isRunning := false } w).client.conn = false := by
        rw [hclient]; exact hcf
      have hC : Close sc w =
          ⟨none,
            { (closeSubsLoop (sc.subscriptions.map Prod.fst)
                { sc with isRunning := false } w).client with ctxCancelled := true },
            (closeSubsLoop (sc.subscriptions.map Prod.fst)
                { sc with isRunning := false } w).wire,
            (closeSubsLoop (sc.subscriptions.map Prod.fst)
                { sc with isRunning := false } w).events ++ [Event.cancelCtx]⟩ := by
        simp [Close, he, hcc]
      refine ⟨by simp [hC], ?_, by simp [hC],
        fun hcx => by rw [hcf] at hcx; cases hcx⟩
      rw [hC]
      show ({ (closeSubsLoop (sc.subscriptions.map Prod.fst)
          { sc with isRunning := false } w).client with ctxCancelled := true }
          : SubscriptionClient) = ⟨false, [], false, true⟩
      rw [hclient]
      simp [hcf]
  · set sc0 : SubscriptionClient := { sc with isRunning := false } with hsc0
    have hpres := closeSubsLoop_preserves (sc0.subscriptions.map Prod.fst) sc0 w
    rcases h : (closeSubsLoop (sc0.subscriptions.map Prod.fst) sc0 w).err with _ | e
    · by_cases hc : (closeSubsLoop (sc0.subscriptions.map Prod.fst) sc0 w).client.conn
      · exfalso
        revert herr
        cases hok : (popClose (terminate true (closeSubsLoop
            (sc0.subscriptions.map Prod.fst) sc0 w).wire).wire).1 <;>
          simp [Close, h, hc, hok]
      · exfalso
        revert herr
        simp [Close, h, hc]
    · have : (Close sc w).client.conn
          = (closeSubsLoop (sc0.subscriptions.map Prod.fst) sc0 w).client.conn := by
        simp [Close, h]
      rw [this, hpres.1]

/-- C1 amended witness: a concrete running client with a live connection
and two subscriptions, all sends succeeding: Close empties the registry,
clears the connection, marks not-running, cancels the context, writes the
terminate frame and closes the transport, without re-entering Run. -/
theorem close_teardown_amended_witness :
    (Close ⟨true, [("a", ⟨"qa", [], 0, true, false⟩), ("b", ⟨"qb", [], 1, true, false⟩)],
        true, false⟩ ⟨[], []⟩).err = none
    ∧ (Close ⟨true, [("a", ⟨"qa", [], 0, true, false⟩), ("b", ⟨"qb", [], 1, true, false⟩)],
        true, false⟩ ⟨[], []⟩).client = ⟨false, [], false, true⟩
    ∧ Event.enterRun ∉ (Close ⟨true, [("a", ⟨"qa", [], 0, true, false⟩),
        ("b", ⟨"qb", [], 1, true, false⟩)], true, false⟩ ⟨[], []⟩).events :=
  have h2 := close_teardown_amended.2.1
    ⟨true, [("a", ⟨"qa", [], 0, true, false⟩), ("b", ⟨"qb", [], 1, true, false⟩)],
      true, false⟩ ⟨[], []⟩ (by decide) (by intro b hb; simp at hb)
    (by intro b hb; simp at hb)
  ⟨h2.1, h2.2.1,
    (close_teardown_amended.1 ⟨true, [("a", ⟨"qa", [], 0, true, false⟩),
      ("b", ⟨"qb", [], 1, true, false⟩)], true, false⟩ ⟨[], []⟩).2.2⟩

end GqlWs
